import Mathlib

/-!
Verification of the water-quality assessment core in `src/app.py`.

We shallowly embed the two functions the claims are about:

* `render_recommendations` (app.py lines 109–187): recommendation synthesis
  from a prediction label, a list of risk-factor strings and the raw
  parameter values.  The Streamlit display calls are presentation only; the
  semantic content is the ordered list of recommendation strings that gets
  written, which the embedding returns.

* `export_results` (app.py lines 191–203): packaging of a flat export row.
  The Python code copies the `input_values` dict and `update`s it with the
  derived fields; we model the dict as an association list with Python's
  `dict.update` semantics (overwrite in place if the key exists, append
  otherwise), so key-collision behaviour is captured faithfully.

Numeric parameters are modelled as rationals.  `prediction` can be a numpy
integer or `None` in Python (`predict_water_quality` returns `None` on
failure), so it is modelled as `Option ℤ`; Python's `prediction == 0` is
`prediction = some 0` and `prediction == 1` is `prediction = some 1`.
Python float formatting (`f"{x:.1f}"`, `f"{x:.3f}"`) is modelled as
fixed-point decimal rendering with round-half-even, which is what Python
uses for exact values.
-/

namespace WaterQuality

/-- The nine physicochemical measurements; the `input_values` dict of the
app always holds exactly these keys with numeric values. -/
structure ParameterSet where
  ph : ℚ
  Hardness : ℚ
  Solids : ℚ
  Chloramines : ℚ
  Sulfate : ℚ
  Conductivity : ℚ
  Organic_carbon : ℚ
  Trihalomethanes : ℚ
  Turbidity : ℚ
deriving DecidableEq, Repr

/-- Substring test on character lists: does the second list occur
contiguously in the first? -/
def listContainsSub (pat : List Char) : List Char → Bool
  | [] => pat.isEmpty
  | c :: rest => pat.isPrefixOf (c :: rest) || listContainsSub pat rest

/-- Python's `pat in s` substring containment on strings. -/
def strContains (s pat : String) : Bool :=
  listContainsSub pat.data s.data

/-- Python's `any(pat in risk for risk in risk_factors)`. -/
def anyRiskMentions (risk_factors : List String) (pat : String) : Bool :=
  risk_factors.any (fun risk => strContains risk pat)

/-- The four fixed urgent actions opening the unsafe branch
(app.py lines 115–120). -/
def urgentOpening : List String :=
  [ "🛑 **Do not consume this water** until proper treatment",
    "🔬 Get professional water testing from a certified laboratory",
    "💧 Use bottled water or properly treated water for drinking and cooking",
    "🏠 Consider installing appropriate water treatment systems" ]

/-- The pH-too-low targeted entry (app.py line 125). -/
def phLowEntry : String :=
  "🧪 **pH too low**: Consider lime treatment or pH adjustment systems"

/-- The pH-too-high targeted entry (app.py line 127). -/
def phHighEntry : String :=
  "🧪 **pH too high**: Consider acid neutralization systems"

/-- The chloramines targeted entry (app.py line 130). -/
def chloraminesEntry : String :=
  "☣️ **High chloramines**: Install activated carbon filtration"

/-- The trihalomethanes targeted entry (app.py line 133). -/
def trihalomethanesEntry : String :=
  "⚗️ **High trihalomethanes**: Use granular activated carbon or reverse osmosis"

/-- The turbidity targeted entry (app.py line 136). -/
def turbidityEntry : String :=
  "🌊 **High turbidity**: Install sediment filtration and UV disinfection"

/-- The solids (TDS) targeted entry (app.py line 139). -/
def solidsEntry : String :=
  "🧂 **High TDS**: Consider reverse osmosis or distillation systems"

/-- The four fixed maintenance tips opening the safe branch
(app.py lines 147–152). -/
def maintenanceOpening : List String :=
  [ "🔄 **Regular monitoring**: Test water quality periodically",
    "🧽 **System maintenance**: Clean and maintain any existing filtration systems",
    "🏠 **Plumbing check**: Ensure pipes and storage tanks are clean",
    "📊 **Keep records**: Document water quality test results over time" ]

/-- The hardness maintenance tip (app.py line 156). -/
def hardnessTip : String :=
  "🪨 **Water hardness**: Consider water softening for appliance longevity"

/-- The chloramine taste/odor maintenance tip (app.py line 159). -/
def chloramineTasteTip : String :=
  "💨 **Chloramine levels**: Let water sit or use carbon filtration to reduce taste/odor"

/-- Embedding of `render_recommendations(prediction, risk_factors,
input_values)` (app.py lines 109–163), returning the ordered list of
recommendation strings that the function writes.  The Python code builds the
list by successive `append` calls, embedded here as successive conditional
concatenations in the same order. -/
def render_recommendations (prediction : Option ℤ) (risk_factors : List String)
    (input_values : ParameterSet) : List String :=
  if prediction = some 0 then
    -- Unsafe water branch (app.py lines 112–142)
    let recs := urgentOpening
    let recs :=
      if anyRiskMentions risk_factors "pH" then
        if input_values.ph < 6.5 then recs ++ [phLowEntry]
        else if input_values.ph > 8.5 then recs ++ [phHighEntry]
        else recs
      else recs
    let recs :=
      if anyRiskMentions risk_factors "Chloramines" then recs ++ [chloraminesEntry]
      else recs
    let recs :=
      if anyRiskMentions risk_factors "Trihalomethanes" then recs ++ [trihalomethanesEntry]
      else recs
    let recs :=
      if anyRiskMentions risk_factors "Turbidity" then recs ++ [turbidityEntry]
      else recs
    let recs :=
      if anyRiskMentions risk_factors "Solids" then recs ++ [solidsEntry]
      else recs
    recs
  else
    -- Safe water branch (app.py lines 144–163)
    let tips := maintenanceOpening
    let tips :=
      if input_values.Hardness > 300 then tips ++ [hardnessTip]
      else tips
    let tips :=
      if input_values.Chloramines > 2.0 then tips ++ [chloramineTasteTip]
      else tips
    tips

/-- Values a flat export row can hold: strings, rationals, machine ints. -/
inductive EVal where
  | str : String → EVal
  | num : ℚ → EVal
  | int : Nat → EVal
deriving DecidableEq, Repr

/-- A Python dict modelled as an insertion-ordered association list. -/
abbrev Dict := List (String × EVal)

/-- Python `d[k] = v` / `dict.update` semantics for one key: overwrite in
place when the key exists, append at the end otherwise. -/
def dictSet (d : Dict) (k : String) (v : EVal) : Dict :=
  if d.any (fun p => p.1 = k) then
    d.map (fun p => if p.1 = k then (k, v) else p)
  else
    d ++ [(k, v)]

/-- Dictionary lookup: first binding of the key, if any. -/
def dictGet (d : Dict) (k : String) : Option EVal :=
  (d.find? (fun p => p.1 = k)).map (fun p => p.2)

/-- The `input_values` dict of the app: the nine parameters in the order
the sidebar constructs them. -/
def paramDict (ps : ParameterSet) : Dict :=
  [ ("ph", EVal.num ps.ph),
    ("Hardness", EVal.num ps.Hardness),
    ("Solids", EVal.num ps.Solids),
    ("Chloramines", EVal.num ps.Chloramines),
    ("Sulfate", EVal.num ps.Sulfate),
    ("Conductivity", EVal.num ps.Conductivity),
    ("Organic_carbon", EVal.num ps.Organic_carbon),
    ("Trihalomethanes", EVal.num ps.Trihalomethanes),
    ("Turbidity", EVal.num ps.Turbidity) ]

/-- Round-half-even to an integer, the rounding Python's fixed-point float
formatting performs on exact values. -/
def roundHalfEven (q : ℚ) : ℤ :=
  let f := ⌊q⌋
  if q - f < 1/2 then f
  else if q - f > 1/2 then f + 1
  else if f % 2 = 0 then f else f + 1

/-- Left-pad a string with zeros to the given length. -/
def padZeros (s : String) (k : Nat) : String :=
  String.mk (List.replicate (k - s.length) '0') ++ s

/-- Python's `f"{x:.kf}"` fixed-point formatting, modelled on rationals. -/
def formatFixed (k : Nat) (q : ℚ) : String :=
  let n := roundHalfEven (q * (10 : ℚ) ^ k)
  let sign := if n < 0 then "-" else ""
  let m := n.natAbs
  if k = 0 then sign ++ toString m
  else sign ++ toString (m / 10 ^ k) ++ "." ++ padZeros (toString (m % 10 ^ k)) k

/-- Embedding of `export_results(input_values, prediction, probability,
risk_factors)` (app.py lines 191–203).  `probability` is the ordered pair
(P(not potable), P(potable)); the timestamp is caller-supplied since the
Python code stamps the wall clock. -/
def export_results (input_values : Dict) (prediction : Option ℤ)
    (probability : ℚ × ℚ) (risk_factors : List String) (timestamp : String) :
    Dict :=
  let d := input_values
  let d := dictSet d "Prediction"
    (EVal.str (if prediction = some 1 then "Safe" else "Unsafe"))
  let d := dictSet d "Confidence"
    (EVal.str (formatFixed 1 (max probability.1 probability.2 * 100) ++ "%"))
  let d := dictSet d "Safe_Probability" (EVal.str (formatFixed 3 probability.2))
  let d := dictSet d "Unsafe_Probability" (EVal.str (formatFixed 3 probability.1))
  let d := dictSet d "Risk_Factors_Count" (EVal.int risk_factors.length)
  let d := dictSet d "Risk_Factors"
    (EVal.str (if risk_factors.isEmpty then "None"
               else String.intercalate "; " risk_factors))
  let d := dictSet d "Timestamp" (EVal.str timestamp)
  d

/-- Scenario-B-like parameter set: low pH, high turbidity. -/
def psScenarioB : ParameterSet :=
  ⟨5, 200, 300, 3, 200, 400, 10, 50, 8⟩

/-- Scenario-B-like risk list, as the risk engine would phrase it. -/
def rfScenarioB : List String :=
  ["pH level outside safe range", "High Turbidity level"]

/-- Scenario-C-like parameter set: all safe, high Hardness, low Chloramines. -/
def psScenarioC : ParameterSet :=
  ⟨7, 350, 300, 1, 200, 400, 10, 50, 3⟩

/-- A parameter set with every value in the unremarkable middle range. -/
def psNeutral : ParameterSet :=
  ⟨7, 200, 300, 3, 200, 400, 10, 50, 3⟩

/-- Every string the unsafe track can ever emit. -/
def unsafePool : List String :=
  urgentOpening ++ [phLowEntry, phHighEntry, chloraminesEntry,
    trihalomethanesEntry, turbidityEntry, solidsEntry]

/-- Every string the safe track can ever emit. -/
def safePool : List String :=
  maintenanceOpening ++ [hardnessTip, chloramineTasteTip]

/-! ### Helper lemmas: association-list dictionaries -/

/-- Looking up an overwritten key finds the new binding. -/
theorem find_map_self (k : String) (v : EVal) (d : Dict)
    (h : d.any (fun p => p.1 = k) = true) :
    (d.map (fun p => if p.1 = k then (k, v) else p)).find?
      (fun p => p.1 = k) = some (k, v) := by
  induction d with
  | nil => simp at h
  | cons hd tl ih =>
    simp only [List.any_cons, Bool.or_eq_true, decide_eq_true_eq] at h
    by_cases hk : hd.1 = k
    · simp only [List.map_cons, if_pos hk]
      rw [List.find?_cons_of_pos _ (by simp)]
    · simp only [List.map_cons, if_neg hk]
      rw [List.find?_cons_of_neg _ (by simpa using hk)]
      exact ih (h.resolve_left hk)

/-- Looking up a freshly appended key finds the new binding. -/
theorem find_append_single (k : String) (v : EVal) (d : Dict)
    (h : d.any (fun p => p.1 = k) = false) :
    (d ++ [(k, v)]).find? (fun p => p.1 = k) = some (k, v) := by
  induction d with
  | nil =>
    rw [List.nil_append, List.find?_cons_of_pos _ (by simp)]
  | cons hd tl ih =>
    simp only [List.any_cons, Bool.or_eq_false_iff, decide_eq_false_iff_not] at h
    rw [List.cons_append, List.find?_cons_of_neg _ (by simpa using h.1)]
    exact ih h.2

/-- Overwriting one key leaves lookups of a different key unchanged. -/
theorem find_map_ne (k k2 : String) (hne : k ≠ k2) (v : EVal) (d : Dict) :
    (d.map (fun p => if p.1 = k2 then (k2, v) else p)).find?
      (fun p => p.1 = k) = d.find? (fun p => p.1 = k) := by
  induction d with
  | nil => rfl
  | cons hd tl ih =>
    simp only [List.map_cons]
    by_cases h2 : hd.1 = k2
    · rw [if_pos h2,
        List.find?_cons_of_neg _ (by simp [Ne.symm hne]),
        List.find?_cons_of_neg _ (by simp [h2, Ne.symm hne])]
      exact ih
    · rw [if_neg h2]
      by_cases hk : hd.1 = k
      · rw [List.find?_cons_of_pos _ (by simp [hk]),
          List.find?_cons_of_pos _ (by simp [hk])]
      · rw [List.find?_cons_of_neg _ (by simp [hk]),
          List.find?_cons_of_neg _ (by simp [hk])]
        exact ih

/-- Appending a binding for one key leaves lookups of a different key
unchanged. -/
theorem find_append_single_ne (k k2 : String) (hne : k ≠ k2) (v : EVal)
    (d : Dict) :
    (d ++ [(k2, v)]).find? (fun p => p.1 = k) = d.find? (fun p => p.1 = k) := by
  induction d with
  | nil =>
    rw [List.nil_append, List.find?_cons_of_neg _ (by simp [Ne.symm hne])]
  | cons hd tl ih =>
    rw [List.cons_append]
    by_cases hk : hd.1 = k
    · rw [List.find?_cons_of_pos _ (by simp [hk]),
        List.find?_cons_of_pos _ (by simp [hk])]
    · rw [List.find?_cons_of_neg _ (by simp [hk]),
        List.find?_cons_of_neg _ (by simp [hk])]
      exact ih

/-- `dictGet` after `dictSet` on the same key yields the written value. -/
theorem dictGet_dictSet_self (d : Dict) (k : String) (v : EVal) :
    dictGet (dictSet d k v) k = some v := by
  unfold dictGet dictSet
  split_ifs with hex
  · rw [find_map_self k v d hex]
    rfl
  · rw [find_append_single k v d (Bool.eq_false_iff.mpr hex)]
    rfl

/-- `dictGet` after `dictSet` on a different key is unchanged. -/
theorem dictGet_dictSet_ne (d : Dict) (k k2 : String) (v : EVal)
    (hne : k ≠ k2) :
    dictGet (dictSet d k2 v) k = dictGet d k := by
  unfold dictGet dictSet
  split_ifs with hex
  · rw [find_map_ne k k2 hne v d]
  · rw [find_append_single_ne k k2 hne v d]

/-! ### Helper lemmas: branch normal forms -/

/-- Normal form of the unsafe branch: the four urgent actions followed by
the gated targeted entries in the source's evaluation order. -/
theorem render_unsafe_eq (rf : List String) (ps : ParameterSet) :
    render_recommendations (some 0) rf ps =
      urgentOpening
      ++ (if anyRiskMentions rf "pH" = true then
            if ps.ph < 6.5 then [phLowEntry]
            else if ps.ph > 8.5 then [phHighEntry]
            else []
          else [])
      ++ (if anyRiskMentions rf "Chloramines" = true then [chloraminesEntry] else [])
      ++ (if anyRiskMentions rf "Trihalomethanes" = true then [trihalomethanesEntry] else [])
      ++ (if anyRiskMentions rf "Turbidity" = true then [turbidityEntry] else [])
      ++ (if anyRiskMentions rf "Solids" = true then [solidsEntry] else []) := by
  simp only [render_recommendations, reduceIte]
  split_ifs <;> simp [List.append_assoc]

/-- Normal form of the safe branch: the four maintenance tips followed by
the two advisory-gated tips. -/
theorem render_safe_eq (p : Option ℤ) (hp : p ≠ some 0) (rf : List String)
    (ps : ParameterSet) :
    render_recommendations p rf ps =
      maintenanceOpening
      ++ (if ps.Hardness > 300 then [hardnessTip] else [])
      ++ (if ps.Chloramines > 2.0 then [chloramineTasteTip] else []) := by
  simp only [render_recommendations, if_neg hp]
  split_ifs <;> simp [List.append_assoc]

/-- A string distinct from the singleton content is not in a gated chunk. -/
theorem not_mem_if_singleton {x y : String} (c : Prop) [Decidable c] (h : x ≠ y) :
    x ∉ (if c then [y] else ([] : List String)) := by
  split_ifs <;> simp [h]

/-- No unsafe-track string is a safe-track string. -/
theorem unsafePool_disjoint_safePool : ∀ x ∈ unsafePool, x ∉ safePool := by
  decide

/-- No safe-track string is an unsafe-track string. -/
theorem safePool_disjoint_unsafePool : ∀ x ∈ safePool, x ∉ unsafePool := by
  decide

/-- The unsafe branch emits only unsafe-track strings. -/
theorem unsafe_output_subset_pool (rf : List String) (ps : ParameterSet) :
    render_recommendations (some 0) rf ps ⊆ unsafePool := by
  rw [render_unsafe_eq]
  refine List.append_subset.mpr ⟨List.append_subset.mpr ⟨List.append_subset.mpr
    ⟨List.append_subset.mpr ⟨List.append_subset.mpr ⟨?_, ?_⟩, ?_⟩, ?_⟩, ?_⟩, ?_⟩ <;>
    first
      | (split_ifs <;> simp [unsafePool])
      | simp [unsafePool, urgentOpening]

/-- The safe branch emits only safe-track strings. -/
theorem safe_output_subset_pool (p : Option ℤ) (hp : p ≠ some 0)
    (rf : List String) (ps : ParameterSet) :
    render_recommendations p rf ps ⊆ safePool := by
  rw [render_safe_eq p hp]
  refine List.append_subset.mpr ⟨List.append_subset.mpr ⟨?_, ?_⟩, ?_⟩ <;>
    first
      | (split_ifs <;> simp [safePool])
      | simp [safePool, maintenanceOpening]

/-! ### Claim theorems -/

/-- C1 counterexample: with prediction 0, a risk list containing a pH
mention, and ph = 7 (inside [6.5, 8.5]), no pH entry is appended even
though the pH risk factor is present — refuting "appended iff its named
risk factor is present" for the pH entry. -/
theorem C1_counterexample :
    anyRiskMentions ["pH reading suspicious"] "pH" = true ∧
    phLowEntry ∉ render_recommendations (some 0) ["pH reading suspicious"] psNeutral ∧
    phHighEntry ∉ render_recommendations (some 0) ["pH reading suspicious"] psNeutral := by
  have h := render_unsafe_eq ["pH reading suspicious"] psNeutral
  have h1 : anyRiskMentions ["pH reading suspicious"] "pH" = true := rfl
  have h2 : anyRiskMentions ["pH reading suspicious"] "Chloramines" = false := rfl
  have h3 : anyRiskMentions ["pH reading suspicious"] "Trihalomethanes" = false := rfl
  have h4 : anyRiskMentions ["pH reading suspicious"] "Turbidity" = false := rfl
  have h5 : anyRiskMentions ["pH reading suspicious"] "Solids" = false := rfl
  have hlo : ¬ (psNeutral.ph < 6.5) := by norm_num [psNeutral]
  have hhi : ¬ (psNeutral.ph > 8.5) := by norm_num [psNeutral]
  refine ⟨h1, ?_, ?_⟩ <;>
  · rw [h]
    simp [h1, h2, h3, h4, h5, hlo, hhi, urgentOpening, phLowEntry, phHighEntry]

/-- C1 (amended): for every prediction labelled unsafe,
`render_recommendations` emits exactly the fixed opening block of four
urgent actions first, then the gated targeted entries in exactly this
order: the pH entry if a pH risk factor is present AND the ph value is
outside [6.5, 8.5] (wording chosen by the side), then the Chloramines,
Trihalomethanes, Turbidity and Solids entries, each appended iff its named
risk factor is present in the risk-factor list. -/
theorem C1_unsafe_structure (p : Option ℤ) (rf : List String) (ps : ParameterSet)
    (h : p = some 0) :
    render_recommendations p rf ps =
      urgentOpening
      ++ (if anyRiskMentions rf "pH" = true then
            if ps.ph < 6.5 then [phLowEntry]
            else if ps.ph > 8.5 then [phHighEntry]
            else []
          else [])
      ++ (if anyRiskMentions rf "Chloramines" = true then [chloraminesEntry] else [])
      ++ (if anyRiskMentions rf "Trihalomethanes" = true then [trihalomethanesEntry] else [])
      ++ (if anyRiskMentions rf "Turbidity" = true then [turbidityEntry] else [])
      ++ (if anyRiskMentions rf "Solids" = true then [solidsEntry] else []) := by
  subst h
  exact render_unsafe_eq rf ps

/-- C1 witness: Scenario B (ph = 5, Turbidity = 8, prediction unsafe)
yields the four urgent actions, the low-pH entry, then the turbidity
entry. -/
theorem C1_unsafe_structure_witness :
    render_recommendations (some 0) rfScenarioB psScenarioB =
      urgentOpening ++ [phLowEntry] ++ [] ++ [] ++ [turbidityEntry] ++ [] := by
  rw [C1_unsafe_structure (some 0) rfScenarioB psScenarioB rfl]
  have h1 : anyRiskMentions rfScenarioB "pH" = true := rfl
  have h2 : anyRiskMentions rfScenarioB "Chloramines" = false := rfl
  have h3 : anyRiskMentions rfScenarioB "Trihalomethanes" = false := rfl
  have h4 : anyRiskMentions rfScenarioB "Turbidity" = true := rfl
  have h5 : anyRiskMentions rfScenarioB "Solids" = false := rfl
  have hph : psScenarioB.ph < 6.5 := by norm_num [psScenarioB]
  simp [h1, h2, h3, h4, h5, hph]

/-- C2: in the unsafe branch with a pH risk factor present, the appended
pH recommendation's wording is selected by the actual ph value: the
"pH too low" entry when ph < 6.5 and the "pH too high" entry when
ph > 8.5, never both. -/
theorem C2_ph_wording (p : Option ℤ) (rf : List String) (ps : ParameterSet)
    (h : p = some 0) (hrisk : anyRiskMentions rf "pH" = true) :
    (ps.ph < 6.5 →
      phLowEntry ∈ render_recommendations p rf ps ∧
      phHighEntry ∉ render_recommendations p rf ps) ∧
    (ps.ph > 8.5 →
      phHighEntry ∈ render_recommendations p rf ps ∧
      phLowEntry ∉ render_recommendations p rf ps) := by
  subst h
  rw [render_unsafe_eq, if_pos hrisk]
  constructor
  · intro hlow
    rw [if_pos hlow]
    refine ⟨by simp, ?_⟩
    simp only [List.append_assoc, List.mem_append, not_or]
    exact ⟨by decide, by decide,
      not_mem_if_singleton _ (by decide), not_mem_if_singleton _ (by decide),
      not_mem_if_singleton _ (by decide), not_mem_if_singleton _ (by decide)⟩
  · intro hhigh
    have hnl : ¬ ps.ph < 6.5 := by
      intro hc
      have : (6.5 : ℚ) < 8.5 := by norm_num
      linarith
    rw [if_neg hnl, if_pos hhigh]
    refine ⟨by simp, ?_⟩
    simp only [List.append_assoc, List.mem_append, not_or]
    exact ⟨by decide, by decide,
      not_mem_if_singleton _ (by decide), not_mem_if_singleton _ (by decide),
      not_mem_if_singleton _ (by decide), not_mem_if_singleton _ (by decide)⟩

/-- C2 witness: Scenario B has ph = 5 < 6.5, so the low-pH wording is
emitted and the high-pH wording is not. -/
theorem C2_ph_wording_witness :
    phLowEntry ∈ render_recommendations (some 0) rfScenarioB psScenarioB ∧
    phHighEntry ∉ render_recommendations (some 0) rfScenarioB psScenarioB := by
  have h := C2_ph_wording (some 0) rfScenarioB psScenarioB rfl rfl
  exact h.1 (by norm_num [psScenarioB])

/-- C3: for every prediction labelled safe, `render_recommendations` emits
exactly the fixed opening block of four maintenance tips, then a Hardness
tip iff Hardness > 300, then a Chloramines taste/odor tip iff
Chloramines > 2.0; nothing else. -/
theorem C3_safe_branch (p : Option ℤ) (rf : List String) (ps : ParameterSet)
    (h : p = some 1) :
    render_recommendations p rf ps =
      maintenanceOpening
      ++ (if ps.Hardness > 300 then [hardnessTip] else [])
      ++ (if ps.Chloramines > 2.0 then [chloramineTasteTip] else []) := by
  subst h
  exact render_safe_eq (some 1) (by decide) rf ps

/-- C3 witness: Scenario C (safe label, Hardness = 350, Chloramines = 1)
gets the Hardness tip and no Chloramines tip. -/
theorem C3_safe_branch_witness :
    render_recommendations (some 1) [] psScenarioC =
      maintenanceOpening ++ [hardnessTip] ++ [] := by
  rw [C3_safe_branch (some 1) [] psScenarioC rfl]
  have hH : psScenarioC.Hardness > 300 := by norm_num [psScenarioC]
  have hC : ¬ (psScenarioC.Chloramines > 2.0) := by norm_num [psScenarioC]
  simp [hH, hC]

/-- C4: the recommendation output contains exactly one of the two tracks:
the urgent-action opening block is a prefix of the output iff the label is
unsafe (prediction 0), the maintenance opening block is a prefix iff it is
not, and the output as a whole lies inside exactly one track pool — either
every entry is an unsafe-track string and none is a safe-track string, or
every entry is a safe-track string and none is an unsafe-track string; so
no output ever mixes entries from both tracks. -/
theorem C4_two_tracks (p : Option ℤ) (rf : List String) (ps : ParameterSet) :
    (urgentOpening <+: render_recommendations p rf ps ↔ p = some 0) ∧
    (maintenanceOpening <+: render_recommendations p rf ps ↔ p ≠ some 0) ∧
    ((render_recommendations p rf ps ⊆ unsafePool ∧
        ∀ x ∈ render_recommendations p rf ps, x ∉ safePool) ∨
     (render_recommendations p rf ps ⊆ safePool ∧
        ∀ x ∈ render_recommendations p rf ps, x ∉ unsafePool)) := by
  by_cases hp : p = some 0
  · subst hp
    refine ⟨iff_of_true ?_ rfl, ?_, ?_⟩
    · rw [render_unsafe_eq]
      simp only [List.append_assoc]
      exact List.prefix_append _ _
    · rw [render_unsafe_eq]
      simp only [ne_eq, not_true_eq_false, iff_false, List.append_assoc]
      simp [urgentOpening, maintenanceOpening, List.cons_prefix_cons]
    · exact Or.inl ⟨unsafe_output_subset_pool rf ps,
        fun x hx => unsafePool_disjoint_safePool x
          (unsafe_output_subset_pool rf ps hx)⟩
  · refine ⟨?_, iff_of_true ?_ hp, ?_⟩
    · rw [render_safe_eq p hp]
      simp only [hp, iff_false, List.append_assoc]
      simp [urgentOpening, maintenanceOpening, List.cons_prefix_cons]
    · rw [render_safe_eq p hp]
      simp only [List.append_assoc]
      exact List.prefix_append _ _
    · exact Or.inr ⟨safe_output_subset_pool p hp rf ps,
        fun x hx => safePool_disjoint_unsafePool x
          (safe_output_subset_pool p hp rf ps hx)⟩

/-- C5: the exported Confidence field is max(probability) * 100 formatted
to one decimal place as a percentage string, Safe_Probability is
probability[1] to 3 decimals, and Unsafe_Probability is probability[0] to
3 decimals, for every probability pair. -/
theorem C5_export_derived (ps : ParameterSet) (p : Option ℤ) (prob : ℚ × ℚ)
    (rf : List String) (ts : String) :
    dictGet (export_results (paramDict ps) p prob rf ts) "Confidence" =
      some (EVal.str (formatFixed 1 (max prob.1 prob.2 * 100) ++ "%")) ∧
    dictGet (export_results (paramDict ps) p prob rf ts) "Safe_Probability" =
      some (EVal.str (formatFixed 3 prob.2)) ∧
    dictGet (export_results (paramDict ps) p prob rf ts) "Unsafe_Probability" =
      some (EVal.str (formatFixed 3 prob.1)) := by
  simp only [export_results]
  refine ⟨?_, ?_, ?_⟩
  · rw [dictGet_dictSet_ne _ _ _ _ (by decide), dictGet_dictSet_ne _ _ _ _ (by decide),
      dictGet_dictSet_ne _ _ _ _ (by decide), dictGet_dictSet_ne _ _ _ _ (by decide),
      dictGet_dictSet_ne _ _ _ _ (by decide), dictGet_dictSet_self]
  · rw [dictGet_dictSet_ne _ _ _ _ (by decide), dictGet_dictSet_ne _ _ _ _ (by decide),
      dictGet_dictSet_ne _ _ _ _ (by decide), dictGet_dictSet_ne _ _ _ _ (by decide),
      dictGet_dictSet_self]
  · rw [dictGet_dictSet_ne _ _ _ _ (by decide), dictGet_dictSet_ne _ _ _ _ (by decide),
      dictGet_dictSet_ne _ _ _ _ (by decide), dictGet_dictSet_self]

/-- C6: the exported Risk_Factors_Count is the length of the risk-factor
list, and Risk_Factors is the "; "-joined list when non-empty and the
literal "None" when empty. -/
theorem C6_risk_fields (ps : ParameterSet) (p : Option ℤ) (prob : ℚ × ℚ)
    (rf : List String) (ts : String) :
    dictGet (export_results (paramDict ps) p prob rf ts) "Risk_Factors_Count" =
      some (EVal.int rf.length) ∧
    dictGet (export_results (paramDict ps) p prob rf ts) "Risk_Factors" =
      some (EVal.str (if rf = [] then "None" else String.intercalate "; " rf)) := by
  simp only [export_results]
  constructor
  · rw [dictGet_dictSet_ne _ _ _ _ (by decide), dictGet_dictSet_ne _ _ _ _ (by decide),
      dictGet_dictSet_self]
  · rw [dictGet_dictSet_ne _ _ _ _ (by decide), dictGet_dictSet_self]
    cases rf with
    | nil => rfl
    | cons a l => rfl

/-- C7: `export_results` is a pure copy-and-extend of its input dict (the
embedding models Python's `dict.copy()` + `update`), and each of the nine
parameter fields appears in the produced flat row with exactly the value
that was passed in. -/
theorem C7_param_roundtrip (ps : ParameterSet) (p : Option ℤ) (prob : ℚ × ℚ)
    (rf : List String) (ts : String) :
    dictGet (export_results (paramDict ps) p prob rf ts) "ph" =
      some (EVal.num ps.ph) ∧
    dictGet (export_results (paramDict ps) p prob rf ts) "Hardness" =
      some (EVal.num ps.Hardness) ∧
    dictGet (export_results (paramDict ps) p prob rf ts) "Solids" =
      some (EVal.num ps.Solids) ∧
    dictGet (export_results (paramDict ps) p prob rf ts) "Chloramines" =
      some (EVal.num ps.Chloramines) ∧
    dictGet (export_results (paramDict ps) p prob rf ts) "Sulfate" =
      some (EVal.num ps.Sulfate) ∧
    dictGet (export_results (paramDict ps) p prob rf ts) "Conductivity" =
      some (EVal.num ps.Conductivity) ∧
    dictGet (export_results (paramDict ps) p prob rf ts) "Organic_carbon" =
      some (EVal.num ps.Organic_carbon) ∧
    dictGet (export_results (paramDict ps) p prob rf ts) "Trihalomethanes" =
      some (EVal.num ps.Trihalomethanes) ∧
    dictGet (export_results (paramDict ps) p prob rf ts) "Turbidity" =
      some (EVal.num ps.Turbidity) := by
  simp only [export_results]
  refine ⟨?_, ?_, ?_, ?_, ?_, ?_, ?_, ?_, ?_⟩ <;>
  · rw [dictGet_dictSet_ne _ _ _ _ (by decide), dictGet_dictSet_ne _ _ _ _ (by decide),
      dictGet_dictSet_ne _ _ _ _ (by decide), dictGet_dictSet_ne _ _ _ _ (by decide),
      dictGet_dictSet_ne _ _ _ _ (by decide), dictGet_dictSet_ne _ _ _ _ (by decide),
      dictGet_dictSet_ne _ _ _ _ (by decide)]
    rfl

/-- C8: recommendation synthesis is deterministic — two calls with equal
inputs produce equal ordered recommendation lists. -/
theorem C8_deterministic (p q : Option ℤ) (rf rg : List String)
    (ps qs : ParameterSet) (hp : p = q) (hr : rf = rg) (hs : ps = qs) :
    render_recommendations p rf ps = render_recommendations q rg qs := by
  subst hp
  subst hr
  subst hs
  rfl

/-- C8 witness: determinism at the Scenario-B input. -/
theorem C8_deterministic_witness :
    render_recommendations (some 0) rfScenarioB psScenarioB =
      render_recommendations (some 0) rfScenarioB psScenarioB :=
  C8_deterministic (some 0) (some 0) rfScenarioB rfScenarioB psScenarioB
    psScenarioB rfl rfl rfl

/-- C9: the maintenance track is selected exactly when prediction is not 0
(so a `None` prediction gets maintenance recommendations), while the
export labels the row "Safe" exactly when prediction is 1 (so a `None`
prediction is exported as "Unsafe"). -/
theorem C9_none_mismatch (p : Option ℤ) (rf : List String) (ps : ParameterSet)
    (prob : ℚ × ℚ) (ts : String) :
    (render_recommendations p rf ps =
      maintenanceOpening
      ++ (if ps.Hardness > 300 then [hardnessTip] else [])
      ++ (if ps.Chloramines > 2.0 then [chloramineTasteTip] else []) ↔ p ≠ some 0) ∧
    (dictGet (export_results (paramDict ps) p prob rf ts) "Prediction" =
      some (EVal.str "Safe") ↔ p = some 1) ∧
    (render_recommendations none rf ps = render_recommendations (some 1) rf ps) ∧
    dictGet (export_results (paramDict ps) none prob rf ts) "Prediction" =
      some (EVal.str "Unsafe") := by
  refine ⟨?_, ?_, ?_, ?_⟩
  · by_cases hp : p = some 0
    · subst hp
      refine iff_of_false ?_ (by simp)
      rw [render_unsafe_eq]
      intro h
      simp [urgentOpening, maintenanceOpening] at h
    · exact iff_of_true (render_safe_eq p hp rf ps) hp
  · simp only [export_results]
    rw [dictGet_dictSet_ne _ _ _ _ (by decide), dictGet_dictSet_ne _ _ _ _ (by decide),
      dictGet_dictSet_ne _ _ _ _ (by decide), dictGet_dictSet_ne _ _ _ _ (by decide),
      dictGet_dictSet_ne _ _ _ _ (by decide), dictGet_dictSet_ne _ _ _ _ (by decide),
      dictGet_dictSet_self]
    by_cases h1 : p = some 1 <;> simp [h1]
  · rw [render_safe_eq none (by simp) rf ps,
      render_safe_eq (some 1) (by simp) rf ps]
  · simp only [export_results]
    rw [dictGet_dictSet_ne _ _ _ _ (by decide), dictGet_dictSet_ne _ _ _ _ (by decide),
      dictGet_dictSet_ne _ _ _ _ (by decide), dictGet_dictSet_ne _ _ _ _ (by decide),
      dictGet_dictSet_ne _ _ _ _ (by decide), dictGet_dictSet_ne _ _ _ _ (by decide),
      dictGet_dictSet_self]
    rfl

/-- C10: in the unsafe branch, a risk list mentioning pH combined with a
ph value inside [6.5, 8.5] yields no pH-specific recommendation at all:
the pH gate can match the risk list yet emit nothing. -/
theorem C10_ph_gate_silent (rf : List String) (ps : ParameterSet)
    (hrisk : anyRiskMentions rf "pH" = true)
    (hlo : 6.5 ≤ ps.ph) (hhi : ps.ph ≤ 8.5) :
    phLowEntry ∉ render_recommendations (some 0) rf ps ∧
    phHighEntry ∉ render_recommendations (some 0) rf ps := by
  rw [render_unsafe_eq, if_pos hrisk, if_neg (not_lt.mpr hlo),
    if_neg (not_lt.mpr hhi)]
  constructor <;>
  · simp only [List.append_assoc, List.append_nil, List.nil_append,
      List.mem_append, not_or]
    refine ⟨by decide, ?_, ?_, ?_, ?_⟩ <;>
      exact not_mem_if_singleton _ (by decide)

/-- C10 witness: risk list ["pH anomaly detected"], ph = 7. -/
theorem C10_ph_gate_silent_witness :
    phLowEntry ∉ render_recommendations (some 0) ["pH anomaly detected"] psNeutral ∧
    phHighEntry ∉ render_recommendations (some 0) ["pH anomaly detected"] psNeutral :=
  C10_ph_gate_silent ["pH anomaly detected"] psNeutral rfl
    (by norm_num [psNeutral]) (by norm_num [psNeutral])

end WaterQuality
